import Mathlib

/-!
# Verification development for the AI_NovelGenerator repository

Shallow embedding, in Lean 4, of the parts of the code base that the
claims under audit talk about:

* `plugins/version_manager.py` — semantic-version compatibility checking
* `plugins/crash_handler.py`   — crash recording, auto-disable, recovery
* `plugins/performance.py`     — the per-minute call-rate gate
* `plugins/events.py`          — priority-ordered event dispatch
* `language_manager.py`        — translation lookup and formatting
* `ui/controllers/generation_controller.py` and
  `ui/controllers/base_controller.py` — the staged generation flow

Python dictionaries are modelled as association lists (`List (String × α)`)
with first-match lookup and in-place update, which matches the insertion
ordering and key uniqueness of CPython dicts as the code uses them.
Wall-clock timestamps are modelled as integer seconds.  Each definition is
a direct transcription of the corresponding Python function; deviations
(for instance, fields of a dataclass that no modelled code path reads)
are called out in the doc comment of the definition concerned.
-/

namespace AINovel

/-- `dict.get(key)` on an association list: first binding wins, as in a
Python dict (keys are unique there, so first match is the only match). -/
def getOpt {α : Type} : List (String × α) → String → Option α
  | [], _ => none
  | (k, v) :: rest, key => if k = key then some v else getOpt rest key

/-- `dict.get(key, default)`. -/
def getD {α : Type} (l : List (String × α)) (key : String) (dflt : α) : α :=
  (getOpt l key).getD dflt

/-- `dict[key] = value`: replace an existing binding in place, or append a
new one at the end, preserving CPython's insertion order. -/
def setKey {α : Type} : List (String × α) → String → α → List (String × α)
  | [], k, v => [(k, v)]
  | (k0, v0) :: rest, k, v =>
      if k0 = k then (k, v) :: rest else (k0, v0) :: setKey rest k v

/-- `dict.pop(key, ...)`: drop the binding for `key`, if any. -/
def removeKey {α : Type} : List (String × α) → String → List (String × α)
  | [], _ => []
  | (k0, v0) :: rest, k =>
      if k0 = k then rest else (k0, v0) :: removeKey rest k

/-! ## plugins/version_manager.py -/

/-- `VersionInfo` (major/minor/patch).  The optional `pre_release` and
`build` components of the Python dataclass are omitted: every comparison
the code performs (`__eq__`, `__lt__`, and the default compatibility
check) reads only the `(major, minor, patch)` triple. -/
structure VersionInfo where
  major : Nat
  minor : Nat
  patch : Nat
deriving DecidableEq

/-- `CompatibilityLevel`. -/
inductive CompatibilityLevel where
  | compatible
  | backward_compatible
  | deprecated
  | incompatible
deriving DecidableEq

/-- `VersionInfo.__lt__`: lexicographic comparison of the
`(major, minor, patch)` tuples, as Python compares tuples. -/
def versionLt (a b : VersionInfo) : Bool :=
  decide (a.major < b.major) ||
    (decide (a.major = b.major) &&
      (decide (a.minor < b.minor) ||
        (decide (a.minor = b.minor) && decide (a.patch < b.patch))))

/-- `VersionInfo.__le__` (`self == other or self < other`). -/
def versionLe (a b : VersionInfo) : Bool :=
  decide (a = b) || versionLt a b

/-- `VersionInfo.__gt__` (`not self <= other`). -/
def versionGt (a b : VersionInfo) : Bool :=
  !versionLe a b

/-- `CompatibilityRule`.  The `migration_handler` callable is omitted:
`check_compatibility` never reads it. -/
structure CompatibilityRule where
  min_version : VersionInfo
  max_version : Option VersionInfo
  compatibility_level : CompatibilityLevel
  deprecation_message : Option String

/-- The state of `VersionCompatibilityManager` that `check_compatibility`
reads: the parsed application version and the per-plugin custom rules
(`_setup_default_rules` registers none).  The migration handlers and
deprecated-feature tables are not consulted by `check_compatibility`. -/
structure VersionCompatibilityManager where
  app_version : VersionInfo
  compatibility_rules : List (String × List CompatibilityRule)

/-- `_version_matches_rule`. -/
def versionMatchesRule (plugin_version : VersionInfo) (rule : CompatibilityRule) : Bool :=
  if versionLt plugin_version rule.min_version then false
  else
    match rule.max_version with
    | some mx => if versionGt plugin_version mx then false else true
    | none => true

/-- `_get_compatibility_message`. -/
def getCompatibilityMessage (rule : CompatibilityRule) (plugin_version : VersionInfo) : String :=
  match rule.compatibility_level with
  | .compatible => "完全兼容"
  | .backward_compatible => "向后兼容，建议更新到最新版本"
  | .deprecated =>
      rule.deprecation_message.getD
        ("版本 " ++ toString plugin_version.major ++ " 已弃用，请尽快更新")
  | .incompatible => "版本 " ++ toString plugin_version.major ++ " 不兼容"

/-- `_default_compatibility_check`. -/
def defaultCompatibilityCheck (app_ver plugin_version : VersionInfo) :
    CompatibilityLevel × String :=
  if plugin_version.major ≠ app_ver.major then
    if plugin_version.major < app_ver.major then
      (.deprecated,
        "插件主版本 " ++ toString plugin_version.major ++ " 过旧，当前应用版本 "
          ++ toString app_ver.major)
    else
      (.incompatible,
        "插件主版本 " ++ toString plugin_version.major ++ " 过新，当前应用版本 "
          ++ toString app_ver.major)
  else if plugin_version.minor < app_ver.minor then
    (.backward_compatible,
      "插件次版本 " ++ toString plugin_version.minor ++ " 较旧，建议更新")
  else if plugin_version.minor > app_ver.minor then
    (.incompatible,
      "插件次版本 " ++ toString plugin_version.minor ++ " 过新，当前应用版本 "
        ++ toString app_ver.minor)
  else
    (.compatible, "版本完全兼容")

/-- The `for rule in self._compatibility_rules[plugin_name]` loop of
`check_compatibility`: the first matching rule wins. -/
def checkRules : List CompatibilityRule → VersionInfo → Option (CompatibilityLevel × String)
  | [], _ => none
  | r :: rs, v =>
      if versionMatchesRule v r then some (r.compatibility_level, getCompatibilityMessage r v)
      else checkRules rs v

/-- `check_compatibility`, over already-parsed versions (the version-string
parsing and its failure branch are outside this model). -/
def check_compatibility (mgr : VersionCompatibilityManager) (plugin_name : String)
    (plugin_version : VersionInfo) (required_app_version : Option VersionInfo) :
    CompatibilityLevel × String :=
  let afterRequired :=
    match getOpt mgr.compatibility_rules plugin_name with
    | some rules =>
        match checkRules rules plugin_version with
        | some res => res
        | none => defaultCompatibilityCheck mgr.app_version plugin_version
    | none => defaultCompatibilityCheck mgr.app_version plugin_version
  match required_app_version with
  | some req =>
      if versionLt mgr.app_version req then
        (.incompatible,
          "插件要求应用版本 " ++ toString req.major ++ "，当前版本 "
            ++ toString mgr.app_version.major)
      else afterRequired
  | none => afterRequired

/-! ## plugins/events.py -/

/-- `EventPriority`. -/
inductive EventPriority where
  | low
  | normal
  | high
  | critical
deriving DecidableEq

/-- The numeric `.value` of each `EventPriority` member
(`LOW = 1, NORMAL = 2, HIGH = 3, CRITICAL = 4`). -/
def EventPriority.value : EventPriority → Nat
  | .low => 1
  | .normal => 2
  | .high => 3
  | .critical => 4

/-- A registered `EventHandler`: the wrapped callable is identified by
`handlerId`; the running call-count/total-time statistics of the Python
wrapper are not read by registration or by the dispatch-order logic and
are omitted. -/
structure EventHandlerReg where
  plugin_name : String
  handlerId : Nat
  priority : EventPriority
deriving DecidableEq

/-- Stable insertion of a handler into a list already sorted by descending
priority value: the handler goes after every element of greater-or-equal
priority value. -/
def insertDesc (h : EventHandlerReg) : List EventHandlerReg → List EventHandlerReg
  | [] => [h]
  | x :: xs =>
      if h.priority.value < x.priority.value then x :: insertDesc h xs
      else h :: x :: xs

/-- `self._handlers[event_name].sort(key=lambda h: h.priority.value,
reverse=True)`: CPython's sort is stable, and a stable descending sort is
extensionally unique, so this stable insertion sort computes the same
list. -/
def sortByPriorityDesc : List EventHandlerReg → List EventHandlerReg
  | [] => []
  | x :: xs => insertDesc x (sortByPriorityDesc xs)

/-- The `_handlers` table of `PluginEventSystem`.  The bounded event
history and the statistics dictionary are updated by emission but never
influence which handlers run or in which order, and are omitted. -/
structure EventSystem where
  handlers : List (String × List EventHandlerReg)

/-- A fresh `PluginEventSystem`. -/
def EventSystem.empty : EventSystem := ⟨[]⟩

/-- `register_handler`: append the new handler to the event's list, then
re-sort the list by descending priority value. -/
def register_handler (sys : EventSystem) (event_name : String) (h : EventHandlerReg) :
    EventSystem :=
  ⟨setKey sys.handlers event_name
      (sortByPriorityDesc (getD sys.handlers event_name [] ++ [h]))⟩

/-- A sequence of `register_handler` calls. -/
def registerAll (sys : EventSystem) : List (String × EventHandlerReg) → EventSystem
  | [] => sys
  | (n, h) :: rest => registerAll (register_handler sys n h) rest

/-- The handler sequence that one `emit_event_object` call walks: the
`for handler in handlers` loop runs over `self._handlers.get(event.name,
[])` from front to back, invoking every element (a raising handler is
logged and dispatch continues). -/
def emitInvocationOrder (sys : EventSystem) (event_name : String) : List EventHandlerReg :=
  getD sys.handlers event_name []

/-- `a` may precede `b` in a dispatch: descending priority value. -/
def priorityGe (a b : EventHandlerReg) : Prop :=
  b.priority.value ≤ a.priority.value

/-! ## language_manager.py -/

/-- The Python exceptions relevant to `str.format` inside `translate`:
`KeyError` and `ValueError` are caught there, anything else (notably
`IndexError`) propagates. -/
inductive PyErr where
  | keyError
  | valueError
  | indexError
deriving DecidableEq

/-- A JSON catalog value as `translate` walks it: a string leaf or a
nested object. -/
inductive TransValue where
  | str (s : String)
  | obj (entries : List (String × TransValue))

/-- The `for k in keys` descent loop of `translate`: from a value,
follow each key component while the value is a dict containing the
component; any other situation fails the descent. -/
def descend : List String → TransValue → Option TransValue
  | [], v => some v
  | k :: ks, .obj entries =>
      match getOpt entries k with
      | some v => descend ks v
      | none => none
  | _ :: _, .str _ => none

/-- Modelled from the spec: CPython's `str.format` restricted to the
feature subset the catalogs can exercise — literal text, `{{` and `}}`
escapes, and plain replacement fields without conversion or format
specifier.  The first argument is `none` while scanning literal text and
`some acc` (accumulated field characters, reversed) inside a replacement
field.  Only keyword arguments are ever supplied by `translate`
(`value.format(**kwargs)`), so an automatic (`{}`) or explicit-numeric
(`{0}`) field always fails with `IndexError`; an unknown keyword field
fails with `KeyError`; an unterminated `\x7b` or a stray `\x7d` fails
with `ValueError`. -/
def pyFormatAux (args : List (String × String)) :
    Option (List Char) → List Char → Except PyErr (List Char)
  | none, [] => .ok []
  | none, '{' :: '{' :: rest => (fun r => '{' :: r) <$> pyFormatAux args none rest
  | none, '}' :: '}' :: rest => (fun r => '}' :: r) <$> pyFormatAux args none rest
  | none, '{' :: rest => pyFormatAux args (some []) rest
  | none, '}' :: _ => .error .valueError
  | none, c :: rest => (fun r => c :: r) <$> pyFormatAux args none rest
  | some _, [] => .error .valueError
  | some acc, '}' :: rest =>
      let field := acc.reverse
      if field.isEmpty || field.all Char.isDigit then .error .indexError
      else
        match getOpt args (String.mk field) with
        | some v => (fun r => v.toList ++ r) <$> pyFormatAux args none rest
        | none => .error .keyError
  | some acc, c :: rest => pyFormatAux args (some (c :: acc)) rest

/-- `str.format` on a `String` template. -/
def pyFormat (template : String) (args : List (String × String)) : Except PyErr String :=
  match pyFormatAux args none template.toList with
  | .ok cs => .ok (String.mk cs)
  | .error e => .error e

/-- `key.split('.')` over the characters of the key: `acc` holds the
current component's characters in reverse.  As in Python, an empty key
yields `[""]` and consecutive dots yield empty components. -/
def splitDotsAux : List Char → List Char → List String
  | [], acc => [String.mk acc.reverse]
  | '.' :: rest, acc => String.mk acc.reverse :: splitDotsAux rest []
  | c :: rest, acc => splitDotsAux rest (c :: acc)

/-- `keys = key.split('.')`. -/
def splitKey (key : String) : List String :=
  splitDotsAux key.toList []

/-- The state of `LanguageManager` that `translate` reads. -/
structure LanguageManager where
  default_language : String
  current_language : String
  translations : List (String × List (String × TransValue))

/-- `self.translations.get(lang, \x7b\x7d)`. -/
def catalogOf (mgr : LanguageManager) (lang : String) : List (String × TransValue) :=
  getD mgr.translations lang []

/-- The value-selection portion of `translate`: descend the dot-separated
key through the current locale's catalog; if that descent fails at any
component and the current locale differs from the default one, restart
the full descent on the default locale's catalog; `none` means the code
reaches a `return key`. -/
def resolvedValue (mgr : LanguageManager) (key : String) : Option TransValue :=
  let keys := splitKey key
  match descend keys (.obj (catalogOf mgr mgr.current_language)) with
  | some v => some v
  | none =>
      if mgr.current_language ≠ mgr.default_language then
        descend keys (.obj (catalogOf mgr mgr.default_language))
      else none

/-- `try: return value.format(**kwargs) except (KeyError, ValueError):
return value` — the two listed exception types are caught and yield the
unformatted string; every other exception propagates. -/
def formatOutcome (value : String) (kwargs : List (String × String)) : Except PyErr String :=
  match pyFormat value kwargs with
  | .ok r => .ok r
  | .error .keyError => .ok value
  | .error .valueError => .ok value
  | .error e => .error e

/-- `LanguageManager.translate`: an `Except.error` result models the call
raising that exception. -/
def translate (mgr : LanguageManager) (key : String) (kwargs : List (String × String)) :
    Except PyErr String :=
  match resolvedValue mgr key with
  | some (.str s) => formatOutcome s kwargs
  | some (.obj _) => .ok key
  | none => .ok key

/-! ## plugins/performance.py -/

/-- `ResourceLimits`.  The three floating-point budget fields
(`max_execution_time`, `max_memory_mb`, `max_cpu_percent`) are read only
by the informational `check_resource_limits` and are omitted; the
call-rate gate reads `max_calls_per_minute` and `enabled` alone. -/
structure ResourceLimits where
  max_calls_per_minute : Nat
  enabled : Bool
deriving DecidableEq

/-- The default `ResourceLimits()` (`max_calls_per_minute=1000`,
`enabled=True`). -/
def defaultResourceLimits : ResourceLimits := ⟨1000, true⟩

/-- The state of `PluginPerformanceMonitor` that the call-rate gate
touches.  Timestamps are integer seconds; each plugin's `_call_history`
deque (`maxlen=1000`) is a chronological list. -/
structure PerfMonitor where
  resource_limits : List (String × ResourceLimits)
  default_limits : ResourceLimits
  call_history : List (String × List Int)

/-- A fresh `PluginPerformanceMonitor`. -/
def PerfMonitor.fresh : PerfMonitor := ⟨[], defaultResourceLimits, []⟩

/-- `get_plugin_limits`. -/
def get_plugin_limits (m : PerfMonitor) (plugin_name : String) : ResourceLimits :=
  getD m.resource_limits plugin_name m.default_limits

/-- `deque.append` on a deque with `maxlen=1000`: when full, the leftmost
entry is evicted. -/
def dequeAppend1000 (l : List Int) (t : Int) : List Int :=
  let l2 := l ++ [t]
  if 1000 < l2.length then l2.drop (l2.length - 1000) else l2

/-- `_check_call_rate_limit`: purge entries strictly older than one
minute (`call_history[0] < now - timedelta(minutes=1)`), reject if the
window still holds at least `max_calls_per_minute` entries, otherwise
record `now`.  A disabled limit skips both the purge and the
recording. -/
def check_call_rate_limit (m : PerfMonitor) (plugin_name : String) (now : Int) :
    Bool × PerfMonitor :=
  let limits := get_plugin_limits m plugin_name
  if !limits.enabled then (true, m)
  else
    let history := getD m.call_history plugin_name []
    let cutoff := now - 60
    let purged := history.dropWhile (fun t => decide (t < cutoff))
    if limits.max_calls_per_minute ≤ purged.length then
      (false, { m with call_history := setKey m.call_history plugin_name purged })
    else
      (true,
        { m with call_history := setKey m.call_history plugin_name (dequeAppend1000 purged now) })

/-- The observable outcome of one `start_monitoring` call. -/
inductive StartResult where
  | context
  | rateLimitError
deriving DecidableEq

/-- `start_monitoring`: `RuntimeError` when the gate rejects, otherwise a
`PerformanceContext` is returned. -/
def start_monitoring (m : PerfMonitor) (plugin_name : String) (now : Int) :
    StartResult × PerfMonitor :=
  let (ok, m') := check_call_rate_limit m plugin_name now
  if ok then (.context, m') else (.rateLimitError, m')

/-- A sequence of `start_monitoring` calls at the given times. -/
def runStartCalls (m : PerfMonitor) (plugin_name : String) :
    List Int → List StartResult × PerfMonitor
  | [] => ([], m)
  | t :: ts =>
      let (r, m') := start_monitoring m plugin_name t
      let (rs, m'') := runStartCalls m' plugin_name ts
      (r :: rs, m'')

/-! ## plugins/crash_handler.py -/

/-- `CrashSeverity`. -/
inductive CrashSeverity where
  | low
  | medium
  | high
  | critical
deriving DecidableEq

/-- The Python exception classes `_assess_crash_severity` discriminates
on (`generic` covers every other exception type). -/
inductive ExcKind where
  | memoryError
  | systemError
  | importError
  | attributeError
  | typeError
  | valueError
  | keyError
  | indexError
  | generic
deriving DecidableEq

/-- `type(exception).__name__`. -/
def excTypeName : ExcKind → String
  | .memoryError => "MemoryError"
  | .systemError => "SystemError"
  | .importError => "ImportError"
  | .attributeError => "AttributeError"
  | .typeError => "TypeError"
  | .valueError => "ValueError"
  | .keyError => "KeyError"
  | .indexError => "IndexError"
  | .generic => "Exception"

/-- `_assess_crash_severity`. -/
def assessCrashSeverity : ExcKind → CrashSeverity
  | .memoryError | .systemError => .critical
  | .importError | .attributeError | .typeError => .high
  | .valueError | .keyError | .indexError => .medium
  | .generic => .low

/-- `CrashRecord` (and, field for field, its `to_dict` image in the
on-disk crash log; `to_dict` copies by value, so a later mutation of the
in-memory record never changes an already-written log entry). -/
structure CrashRecord where
  plugin_name : String
  timestamp : Int
  exception_type : String
  exception_message : String
  traceback_info : String
  severity : CrashSeverity
  operation : String
  recovery_attempted : Bool
  recovery_successful : Bool
deriving DecidableEq

/-- One entry of `CrashPolicy.severity_policies`. -/
structure SeverityPolicy where
  auto_restart : Bool
  max_restarts : Nat
  disable_on_failure : Bool
deriving DecidableEq

/-- `CrashPolicy`.  The float-valued `restart_delay` and
`recovery_timeout` only feed `time.sleep` and are omitted.  The
`severity_policies` dict is total over the four severities in the
default policy, so it is modelled as a function. -/
structure CrashPolicy where
  max_crashes_per_hour : Nat
  max_crashes_total : Nat
  restart_attempts : Nat
  auto_disable_threshold : Nat
  severity_policies : CrashSeverity → SeverityPolicy

/-- The `severity_policies` default factory. -/
def defaultSeverityPolicies : CrashSeverity → SeverityPolicy
  | .low => ⟨true, 5, false⟩
  | .medium => ⟨true, 3, true⟩
  | .high => ⟨false, 1, true⟩
  | .critical => ⟨false, 0, true⟩

/-- The default `CrashPolicy()` (`max_crashes_per_hour=3`,
`max_crashes_total=10`, `restart_attempts=2`,
`auto_disable_threshold=5`). -/
def defaultCrashPolicy : CrashPolicy :=
  ⟨3, 10, 2, 5, defaultSeverityPolicies⟩

/-- The state of `PluginCrashHandler`: in-memory records and counts, the
disabled set, restart attempts, per-plugin policies, the per-plugin
on-disk crash-log files, and which plugins have a registered recovery
callback. -/
structure CrashHandlerState where
  crash_records : List (String × List CrashRecord)
  crash_counts : List (String × Nat)
  disabled_plugins : List String
  restart_attempts : List (String × Nat)
  plugin_policies : List (String × CrashPolicy)
  file_logs : List (String × List CrashRecord)
  recovery_callbacks : List String

/-- A fresh handler with an empty crash-log directory. -/
def CrashHandlerState.fresh : CrashHandlerState := ⟨[], [], [], [], [], [], []⟩

/-- `get_plugin_policy`. -/
def get_plugin_policy (st : CrashHandlerState) (plugin_name : String) : CrashPolicy :=
  getD st.plugin_policies plugin_name defaultCrashPolicy

/-- `_get_recent_crashes` (`record.timestamp > now - timedelta(hours=h)`,
strictly). -/
def getRecentCrashes (st : CrashHandlerState) (plugin_name : String) (now : Int)
    (hours : Nat) : List CrashRecord :=
  (getD st.crash_records plugin_name []).filter
    (fun r => decide (now - 3600 * (hours : Int) < r.timestamp))

/-- `_should_disable_plugin`. -/
def shouldDisablePlugin (st : CrashHandlerState) (plugin_name : String)
    (policy : CrashPolicy) (now : Int) : Bool :=
  if plugin_name ∈ st.disabled_plugins then true
  else if policy.auto_disable_threshold ≤ getD st.crash_counts plugin_name 0 then true
  else if policy.max_crashes_per_hour ≤ (getRecentCrashes st plugin_name now 1).length then
    true
  else false

/-- `crashes = crashes[-100:]` in `_log_crash_to_file`. -/
def last100 (l : List CrashRecord) : List CrashRecord :=
  l.drop (l.length - 100)

/-- `_log_crash_to_file`: append the record's `to_dict` image to the
plugin's log file, keeping the last 100 entries. -/
def logCrashToFile (st : CrashHandlerState) (rec : CrashRecord) : CrashHandlerState :=
  { st with
    file_logs :=
      setKey st.file_logs rec.plugin_name
        (last100 (getD st.file_logs rec.plugin_name [] ++ [rec])) }

/-- `_record_crash`: append the record in memory, bump the lifetime
count, and write it to the log file. -/
def recordCrash (st : CrashHandlerState) (rec : CrashRecord) : CrashHandlerState :=
  let st1 :=
    { st with
      crash_records :=
        setKey st.crash_records rec.plugin_name
          (getD st.crash_records rec.plugin_name [] ++ [rec]),
      crash_counts :=
        setKey st.crash_counts rec.plugin_name
          (getD st.crash_counts rec.plugin_name 0 + 1) }
  logCrashToFile st1 rec

/-- `set.add`. -/
def addToSet (l : List String) (p : String) : List String :=
  if p ∈ l then l else l ++ [p]

/-- `_attempt_recovery`.  `cbOk` tells whether the registered recovery
callback, if invoked, returns normally (`true`) or raises (`false`). -/
def attemptRecovery (st : CrashHandlerState) (plugin_name : String)
    (severity : CrashSeverity) (policy : CrashPolicy) (cbOk : Bool) :
    Bool × CrashHandlerState :=
  let sevPolicy := policy.severity_policies severity
  if !sevPolicy.auto_restart then (false, st)
  else
    let current := getD st.restart_attempts plugin_name 0
    if sevPolicy.max_restarts ≤ current then (false, st)
    else
      let st1 :=
        { st with restart_attempts := setKey st.restart_attempts plugin_name (current + 1) }
      if plugin_name ∈ st.recovery_callbacks then (cbOk, st1)
      else (false, st1)

/-- Mutate the last element of a list in place (`crash_record` is the
object most recently appended to the plugin's in-memory list). -/
def updateLast (f : CrashRecord → CrashRecord) : List CrashRecord → List CrashRecord
  | [] => []
  | [x] => [f x]
  | x :: y :: xs => x :: updateLast f (y :: xs)

/-- The outcome of one `handle_crash` call: the returned boolean, whether
the flow reached `_attempt_recovery`, and the updated handler state. -/
structure HandleCrashResult where
  result : Bool
  recovery_attempted : Bool
  state : CrashHandlerState

/-- The `CrashRecord(...)` that `handle_crash` constructs: severity is
the explicit argument or, when absent, the assessed one; both recovery
flags start `False`. -/
def crashRecordOf (plugin_name : String) (excKind : ExcKind)
    (excMessage tracebackInfo operation : String) (severity? : Option CrashSeverity)
    (now : Int) : CrashRecord :=
  { plugin_name := plugin_name
    timestamp := now
    exception_type := excTypeName excKind
    exception_message := excMessage
    traceback_info := tracebackInfo
    severity := severity?.getD (assessCrashSeverity excKind)
    operation := operation
    recovery_attempted := false
    recovery_successful := false }

/-- `handle_crash`.  The crash record is created with both recovery
flags `False`, recorded (memory, count, log file), then either the
plugin is disabled (no recovery attempt) or recovery runs and the
in-memory — not the on-disk — record's flags are updated. -/
def handle_crash (st : CrashHandlerState) (plugin_name : String) (excKind : ExcKind)
    (excMessage tracebackInfo operation : String) (severity? : Option CrashSeverity)
    (now : Int) (cbOk : Bool) : HandleCrashResult :=
  let rec0 := crashRecordOf plugin_name excKind excMessage tracebackInfo operation severity? now
  let st1 := recordCrash st rec0
  let policy := get_plugin_policy st1 plugin_name
  if shouldDisablePlugin st1 plugin_name policy now then
    { result := false
      recovery_attempted := false
      state := { st1 with disabled_plugins := addToSet st1.disabled_plugins plugin_name } }
  else
    let res := attemptRecovery st1 plugin_name rec0.severity policy cbOk
    let st3 :=
      { res.2 with
        crash_records :=
          setKey res.2.crash_records plugin_name
            (updateLast
              (fun r => { r with recovery_attempted := true, recovery_successful := res.1 })
              (getD res.2.crash_records plugin_name [])) }
    { result := res.1, recovery_attempted := true, state := st3 }

/-- `enable_plugin`: drop the plugin from the disabled set and reset its
restart-attempt counter; nothing else. -/
def enable_plugin (st : CrashHandlerState) (plugin_name : String) : CrashHandlerState :=
  if plugin_name ∈ st.disabled_plugins then
    { st with
      disabled_plugins := st.disabled_plugins.erase plugin_name
      restart_attempts := removeKey st.restart_attempts plugin_name }
  else st

/-- `clear_crash_history`: per-plugin or global reset of records, counts,
restart attempts, and log files. -/
def clear_crash_history (st : CrashHandlerState) : Option String → CrashHandlerState
  | some p =>
      { st with
        crash_records := removeKey st.crash_records p
        crash_counts := removeKey st.crash_counts p
        restart_attempts := removeKey st.restart_attempts p
        file_logs := removeKey st.file_logs p }
  | none =>
      { st with crash_records := [], crash_counts := [], restart_attempts := [], file_logs := [] }

/-! ## ui/controllers/generation_controller.py and base_controller.py -/

/-- A Python parameter value with its truthiness. -/
inductive PyVal where
  | vStr (s : String)
  | vInt (n : Int)
  | vNone
deriving DecidableEq

/-- Python truthiness of a parameter value. -/
def PyVal.truthy : PyVal → Bool
  | .vStr s => !(s == "")
  | .vInt n => decide (n ≠ 0)
  | .vNone => false

/-- The f-string rendering of a parameter value. -/
def PyVal.display : PyVal → String
  | .vStr s => s
  | .vInt n => toString n
  | .vNone => "None"

/-- A `params` dictionary. -/
abbrev Params := List (String × PyVal)

/-- `ControllerState` (base_controller.py). -/
inductive ControllerState where
  | idle
  | processing
  | error
  | completed
deriving DecidableEq

/-- The four generation phases the controller drives. -/
inductive Phase where
  | architecture
  | blueprint
  | draft
  | finalization
deriving DecidableEq

/-- The `required_fields` list of the phase's `_validate_*_params`
method. -/
def requiredFieldsFor : Phase → List String
  | .architecture => ["topic", "genre", "num_chapters", "word_number", "filepath"]
  | .blueprint => ["chapter_num", "filepath"]
  | .draft => ["chapter_num", "filepath"]
  | .finalization => ["chapter_num", "filepath"]

/-- The `for field in required_fields` loop shared by the validators:
the first field that is absent or falsy
(`field not in params or not params[field]`). -/
def firstMissingField : List String → Params → Option String
  | [], _ => none
  | f :: fs, ps =>
      match getOpt ps f with
      | none => some f
      | some v => if v.truthy then firstMissingField fs ps else some f

/-- `_validate_architecture_params` as a boolean. -/
def validate_architecture_params (ps : Params) : Bool :=
  (firstMissingField (requiredFieldsFor .architecture) ps).isNone

/-- `_validate_blueprint_params` as a boolean
(`required_fields = ["chapter_num", "filepath"]`). -/
def validate_blueprint_params (ps : Params) : Bool :=
  (firstMissingField (requiredFieldsFor .blueprint) ps).isNone

/-- `_validate_draft_params` as a boolean. -/
def validate_draft_params (ps : Params) : Bool :=
  (firstMissingField (requiredFieldsFor .draft) ps).isNone

/-- `_validate_finalization_params` as a boolean. -/
def validate_finalization_params (ps : Params) : Bool :=
  (firstMissingField (requiredFieldsFor .finalization) ps).isNone

/-- An LLM configuration dictionary (opaque entries). -/
abbrev LlmConfig := List (String × String)

/-- The Model data read by `_get_llm_config_for_task` via `get_data`. -/
structure ModelData where
  choose_configs : List (String × String)
  llm_configs : List (String × LlmConfig)

/-- The `config_key_map` of `_get_llm_config_for_task`. -/
def configKeyFor : Phase → String
  | .architecture => "architecture_llm"
  | .blueprint => "chapter_outline_llm"
  | .draft => "prompt_draft_llm"
  | .finalization => "final_chapter_llm"

/-- `next(iter(llm_configs.values()))` guarded by `if llm_configs`. -/
def firstLlmConfig (md : ModelData) : Option LlmConfig :=
  match md.llm_configs with
  | [] => none
  | (_, c) :: _ => some c

/-- `_get_llm_config_for_task`: `none` for the whole Model covers both a
missing Model and one without `get_data`. -/
def getLlmConfigForTask (modelData : Option ModelData) (task : Phase) : Option LlmConfig :=
  match modelData with
  | none => none
  | some md =>
      match getOpt md.choose_configs (configKeyFor task) with
      | none => firstLlmConfig md
      | some name => if name = "" then firstLlmConfig md else getOpt md.llm_configs name

/-- A call the controller makes on its View. -/
inductive ViewMsg where
  | showError (s : String)
  | showSuccess (s : String)
  | setStatus (s : String)
deriving DecidableEq

/-- `self._current_task` marker per phase. -/
def taskMarkerFor : Phase → String
  | .architecture => "architecture_generation"
  | .blueprint => "blueprint_generation"
  | .draft => "draft_generation"
  | .finalization => "chapter_finalization"

/-- The `event_type` of the start event each phase emits. -/
def startEventFor : Phase → String
  | .architecture => "architecture_generation_started"
  | .blueprint => "blueprint_generation_started"
  | .draft => "draft_generation_started"
  | .finalization => "finalization_started"

/-- The `event_type` of the completion event each phase emits (note:
finalization emits `finalization_completed`). -/
def completeEventFor : Phase → String
  | .architecture => "architecture_generation_completed"
  | .blueprint => "blueprint_generation_completed"
  | .draft => "draft_generation_completed"
  | .finalization => "finalization_completed"

/-- The `task_type` key under which `_call_generation_callbacks` looks up
the phase's callbacks. -/
def callbackKeyFor : Phase → String
  | .architecture => "architecture"
  | .blueprint => "blueprint"
  | .draft => "draft"
  | .finalization => "finalization"

/-- `params.get('chapter_num', '?')` rendered into an f-string. -/
def chapterDisplay (ps : Params) : String :=
  match getOpt ps "chapter_num" with
  | some v => v.display
  | none => "?"

/-- The `set_generation_status` text at the start of each phase. -/
def statusTextFor (phase : Phase) (ps : Params) : String :=
  match phase with
  | .architecture => "**正在生成小说架构...**"
  | .blueprint => "**正在生成第" ++ chapterDisplay ps ++ "章蓝图...**"
  | .draft => "**正在生成第" ++ chapterDisplay ps ++ "章草稿...**"
  | .finalization => "**正在定稿第" ++ chapterDisplay ps ++ "章...**"

/-- The `show_success` text on a successful run. -/
def successTextFor (phase : Phase) (ps : Params) : String :=
  match phase with
  | .architecture => "**小说架构生成完成**"
  | .blueprint => "**第" ++ chapterDisplay ps ++ "章蓝图生成完成**"
  | .draft => "**第" ++ chapterDisplay ps ++ "章草稿生成完成**"
  | .finalization => "**第" ++ chapterDisplay ps ++ "章定稿完成**"

/-- The `show_error` text on a failed run. -/
def failTextFor (phase : Phase) (ps : Params) : String :=
  match phase with
  | .architecture => "**小说架构生成失败**"
  | .blueprint => "**第" ++ chapterDisplay ps ++ "章蓝图生成失败**"
  | .draft => "**第" ++ chapterDisplay ps ++ "章草稿生成失败**"
  | .finalization => "**第" ++ chapterDisplay ps ++ "章定稿失败**"

/-- The `show_error` text when no LLM configuration resolves. -/
def llmMissingTextFor : Phase → String
  | .architecture => "**未找到架构生成的LLM配置**"
  | .blueprint => "**未找到章节蓝图生成的LLM配置**"
  | .draft => "**未找到章节草稿生成的LLM配置**"
  | .finalization => "**未找到章节定稿的LLM配置**"

/-- The controller's environment for one generation call: the Model (for
LLM-config resolution), the registered per-phase callbacks (by id), the
View's duck-typed capabilities, and the boolean outcome the dispatched
generation function reports (`_run_*` catches exceptions and returns
`False`, so a boolean covers it). -/
structure GenEnv where
  modelData : Option ModelData
  generation_callbacks : List (String × List Nat)
  hasShowError : Bool
  hasShowSuccess : Bool
  hasSetGenerationStatus : Bool
  genSuccess : Bool

/-- The observable trace of one `generate_*`/`finalize_chapter` call:
`events` is the sequence of `event_type`s handed to
`BaseController.emit_event` (including the `state_changed` events that
`set_state` emits), `messages` the View calls, `callbackCalls` the
`(callback, success, params)` invocations, the two `Invoked` flags
whether `_get_llm_config_for_task` respectively the phase's generation
function ran, `finalState`/`currentTask` the fields after the `finally`
block, and `result` the returned boolean. -/
structure GenTrace where
  events : List String
  messages : List ViewMsg
  callbackCalls : List (Nat × Bool × Params)
  llmLookupInvoked : Bool
  generationInvoked : Bool
  finalState : ControllerState
  currentTask : Option String
  result : Bool
deriving DecidableEq

/-- The common body of `generate_novel_architecture`,
`generate_chapter_blueprint`, `generate_chapter_draft` and
`finalize_chapter` (the four methods are textually parallel; the
phase-indexed tables above carry every point where they differ):
set state `processing`, validate, resolve the LLM configuration, emit
the start event, run the generation function, and route the outcome;
the `finally` block clears the task marker and the status line. -/
def runGenerationPhase (phase : Phase) (env : GenEnv) (params : Params) : GenTrace :=
  let finallyMsgs : List ViewMsg :=
    if env.hasSetGenerationStatus then [ViewMsg.setStatus ""] else []
  match firstMissingField (requiredFieldsFor phase) params with
  | some f =>
      { events := ["state_changed", "state_changed"]
        messages :=
          (if env.hasShowError then [ViewMsg.showError ("**参数错误**: 缺少" ++ f)] else [])
            ++ finallyMsgs
        callbackCalls := []
        llmLookupInvoked := false
        generationInvoked := false
        finalState := .error
        currentTask := none
        result := false }
  | none =>
      let cfg := getLlmConfigForTask env.modelData phase
      let cfgTruthy := match cfg with | some c => !c.isEmpty | none => false
      if cfgTruthy then
        let statusMsgs : List ViewMsg :=
          if env.hasSetGenerationStatus then [ViewMsg.setStatus (statusTextFor phase params)]
          else []
        let cbs := getD env.generation_callbacks (callbackKeyFor phase) []
        if env.genSuccess then
          { events :=
              ["state_changed", startEventFor phase, completeEventFor phase, "state_changed"]
            messages :=
              statusMsgs
                ++ (if env.hasShowSuccess then [ViewMsg.showSuccess (successTextFor phase params)]
                    else [])
                ++ finallyMsgs
            callbackCalls := cbs.map (fun cb => (cb, true, params))
            llmLookupInvoked := true
            generationInvoked := true
            finalState := .completed
            currentTask := none
            result := true }
        else
          { events := ["state_changed", startEventFor phase, "state_changed"]
            messages :=
              statusMsgs
                ++ (if env.hasShowError then [ViewMsg.showError (failTextFor phase params)]
                    else [])
                ++ finallyMsgs
            callbackCalls := cbs.map (fun cb => (cb, false, params))
            llmLookupInvoked := true
            generationInvoked := true
            finalState := .error
            currentTask := none
            result := false }
      else
        { events := ["state_changed", "state_changed"]
          messages :=
            (if env.hasShowError then [ViewMsg.showError (llmMissingTextFor phase)] else [])
              ++ finallyMsgs
          callbackCalls := []
          llmLookupInvoked := true
          generationInvoked := false
          finalState := .error
          currentTask := none
          result := false }

/-- The per-field failure test of the validators
(`field not in params or not params[field]`). -/
def fieldMissing (ps : Params) (f : String) : Bool :=
  match getOpt ps f with
  | none => true
  | some v => !v.truthy

/-- A monitor holding exactly one plugin's limits and call history, the
configuration every rate-gate scenario below runs in. -/
def mkRateMonitor (p : String) (L : ResourceLimits) (h : List Int) : PerfMonitor :=
  ⟨[(p, L)], defaultResourceLimits, [(p, h)]⟩

/-! ## Theorems -/

theorem check_compatibility_no_rules (mgr : VersionCompatibilityManager) (name : String)
    (pv : VersionInfo) (h : getOpt mgr.compatibility_rules name = none) :
    check_compatibility mgr name pv none = defaultCompatibilityCheck mgr.app_version pv := by
  simp [check_compatibility, h]

/-- C2: with no custom rule registered for the plugin (and no required
application version), `check_compatibility` applies the default policy:
lower plugin major → DEPRECATED, higher plugin major → INCOMPATIBLE;
equal majors with lower plugin minor → BACKWARD_COMPATIBLE, higher
plugin minor → INCOMPATIBLE, equal minor → COMPATIBLE, for every patch
pair; in particular, against application version 2.3.0: 1.9.0 is
DEPRECATED, 3.0.0 INCOMPATIBLE, 2.2.5 BACKWARD_COMPATIBLE, 2.4.0
INCOMPATIBLE, 2.3.9 COMPATIBLE. -/
theorem claim_C2_default_compatibility_policy :
    (∀ (mgr : VersionCompatibilityManager) (name : String) (pv : VersionInfo),
        getOpt mgr.compatibility_rules name = none →
          ((pv.major < mgr.app_version.major →
              (check_compatibility mgr name pv none).1 = CompatibilityLevel.deprecated) ∧
            (mgr.app_version.major < pv.major →
              (check_compatibility mgr name pv none).1 = CompatibilityLevel.incompatible) ∧
            (pv.major = mgr.app_version.major → pv.minor < mgr.app_version.minor →
              (check_compatibility mgr name pv none).1 =
                CompatibilityLevel.backward_compatible) ∧
            (pv.major = mgr.app_version.major → mgr.app_version.minor < pv.minor →
              (check_compatibility mgr name pv none).1 = CompatibilityLevel.incompatible) ∧
            (pv.major = mgr.app_version.major → pv.minor = mgr.app_version.minor →
              (check_compatibility mgr name pv none).1 = CompatibilityLevel.compatible))) ∧
    ((check_compatibility ⟨⟨2, 3, 0⟩, []⟩ "p" ⟨1, 9, 0⟩ none).1 =
        CompatibilityLevel.deprecated ∧
      (check_compatibility ⟨⟨2, 3, 0⟩, []⟩ "p" ⟨3, 0, 0⟩ none).1 =
        CompatibilityLevel.incompatible ∧
      (check_compatibility ⟨⟨2, 3, 0⟩, []⟩ "p" ⟨2, 2, 5⟩ none).1 =
        CompatibilityLevel.backward_compatible ∧
      (check_compatibility ⟨⟨2, 3, 0⟩, []⟩ "p" ⟨2, 4, 0⟩ none).1 =
        CompatibilityLevel.incompatible ∧
      (check_compatibility ⟨⟨2, 3, 0⟩, []⟩ "p" ⟨2, 3, 9⟩ none).1 =
        CompatibilityLevel.compatible) := by
  constructor
  · intro mgr name pv h
    rw [check_compatibility_no_rules mgr name pv h]
    unfold defaultCompatibilityCheck
    refine ⟨fun h1 => ?_, fun h1 => ?_, fun h1 h2 => ?_, fun h1 h2 => ?_, fun h1 h2 => ?_⟩
    · rw [if_pos (by omega), if_pos h1]
    · rw [if_pos (by omega), if_neg (by omega)]
    · rw [if_neg (by omega), if_pos h2]
    · rw [if_neg (by omega), if_neg (by omega), if_pos h2]
    · rw [if_neg (by omega), if_neg (by omega), if_neg (by omega)]
  · exact ⟨rfl, rfl, rfl, rfl, rfl⟩

/-- Witness for C2 at a concrete manager with no rules. -/
theorem claim_C2_default_compatibility_policy_witness :
    (check_compatibility ⟨⟨2, 3, 0⟩, []⟩ "plug" ⟨1, 9, 0⟩ none).1 =
      CompatibilityLevel.deprecated :=
  (claim_C2_default_compatibility_policy.1 ⟨⟨2, 3, 0⟩, []⟩ "plug" ⟨1, 9, 0⟩ rfl).1
    (by decide)

theorem insertDesc_perm (h : EventHandlerReg) (l : List EventHandlerReg) :
    (insertDesc h l).Perm (h :: l) := by
  induction l with
  | nil => exact List.Perm.refl _
  | cons x xs ih =>
      unfold insertDesc
      split
      · exact (List.Perm.cons x ih).trans (List.Perm.swap h x xs)
      · exact List.Perm.refl _

theorem sortByPriorityDesc_perm (l : List EventHandlerReg) :
    (sortByPriorityDesc l).Perm l := by
  induction l with
  | nil => exact List.Perm.refl _
  | cons x xs ih => exact (insertDesc_perm x (sortByPriorityDesc xs)).trans (ih.cons x)

theorem insertDesc_pairwise (h : EventHandlerReg) (l : List EventHandlerReg)
    (hl : l.Pairwise priorityGe) : (insertDesc h l).Pairwise priorityGe := by
  induction l with
  | nil => simp [insertDesc, List.pairwise_singleton]
  | cons x xs ih =>
      rcases List.pairwise_cons.1 hl with ⟨hx, hxs⟩
      unfold insertDesc
      split
      case isTrue hcond =>
        refine List.pairwise_cons.2 ⟨?_, ih hxs⟩
        intro y hy
        rcases List.mem_cons.1 ((insertDesc_perm h xs).mem_iff.1 hy) with hy2 | hy2
        · subst hy2; exact Nat.le_of_lt hcond
        · exact hx y hy2
      case isFalse hcond =>
        refine List.pairwise_cons.2 ⟨?_, hl⟩
        intro y hy
        rcases List.mem_cons.1 hy with hy2 | hy2
        · subst hy2; exact Nat.le_of_not_lt hcond
        · exact Nat.le_trans (hx y hy2) (Nat.le_of_not_lt hcond)

theorem sortByPriorityDesc_pairwise (l : List EventHandlerReg) :
    (sortByPriorityDesc l).Pairwise priorityGe := by
  induction l with
  | nil => exact List.Pairwise.nil
  | cons x xs ih => exact insertDesc_pairwise x (sortByPriorityDesc xs) ih

theorem getOpt_setKey_self {α : Type} (l : List (String × α)) (k : String) (v : α) :
    getOpt (setKey l k v) k = some v := by
  induction l with
  | nil => simp [setKey, getOpt]
  | cons p rest ih =>
      obtain ⟨k0, v0⟩ := p
      by_cases hk : k0 = k
      · simp [setKey, hk, getOpt]
      · simp [setKey, hk, getOpt, ih]

theorem getOpt_setKey_ne {α : Type} (l : List (String × α)) (k k' : String) (v : α)
    (h : k ≠ k') : getOpt (setKey l k v) k' = getOpt l k' := by
  induction l with
  | nil => simp [setKey, getOpt, h]
  | cons p rest ih =>
      obtain ⟨k0, v0⟩ := p
      by_cases hk : k0 = k
      · subst hk
        simp [setKey, getOpt, h]
      · simp [setKey, hk, getOpt, ih]

theorem emitInvocationOrder_register_self (sys : EventSystem) (n : String)
    (h : EventHandlerReg) :
    emitInvocationOrder (register_handler sys n h) n =
      sortByPriorityDesc (getD sys.handlers n [] ++ [h]) := by
  unfold emitInvocationOrder register_handler getD
  rw [getOpt_setKey_self]
  rfl

theorem emitInvocationOrder_register_other (sys : EventSystem) (n n' : String)
    (h : EventHandlerReg) (hne : n ≠ n') :
    emitInvocationOrder (register_handler sys n h) n' = emitInvocationOrder sys n' := by
  unfold emitInvocationOrder register_handler getD
  rw [getOpt_setKey_ne _ _ _ _ hne]

theorem emitInvocationOrder_registerAll_pairwise (regs : List (String × EventHandlerReg)) :
    ∀ (sys : EventSystem),
      (∀ n, (emitInvocationOrder sys n).Pairwise priorityGe) →
      ∀ name, (emitInvocationOrder (registerAll sys regs) name).Pairwise priorityGe := by
  induction regs with
  | nil => intro sys hsys name; exact hsys name
  | cons r rest ih =>
      intro sys hsys name
      obtain ⟨n0, h0⟩ := r
      refine ih (register_handler sys n0 h0) ?_ name
      intro n
      by_cases hn : n0 = n
      · subst hn
        rw [emitInvocationOrder_register_self]
        exact sortByPriorityDesc_pairwise _
      · rw [emitInvocationOrder_register_other sys n0 n h0 hn]
        exact hsys n

theorem emitInvocationOrder_registerAll_perm (regs : List (String × EventHandlerReg)) :
    ∀ (sys : EventSystem) (name : String),
      (emitInvocationOrder (registerAll sys regs) name).Perm
        (emitInvocationOrder sys name ++
          (regs.filter (fun r => r.1 = name)).map Prod.snd) := by
  induction regs with
  | nil => intro sys name; simp [registerAll]
  | cons r rest ih =>
      intro sys name
      obtain ⟨n0, h0⟩ := r
      show (emitInvocationOrder (registerAll (register_handler sys n0 h0) rest) name).Perm _
      have step := ih (register_handler sys n0 h0) name
      by_cases hn : n0 = name
      · subst hn
        rw [emitInvocationOrder_register_self] at step
        have hperm :
            (sortByPriorityDesc (getD sys.handlers n0 [] ++ [h0]) ++
                (rest.filter (fun r => r.1 = n0)).map Prod.snd).Perm
              (emitInvocationOrder sys n0 ++
                (((n0, h0) :: rest).filter (fun r => r.1 = n0)).map Prod.snd) := by
          simp only [List.filter_cons, decide_eq_true_eq, if_pos rfl, List.map_cons]
          have h1 := (sortByPriorityDesc_perm (getD sys.handlers n0 [] ++ [h0])).append_right
            ((rest.filter (fun r => r.1 = n0)).map Prod.snd)
          refine h1.trans ?_
          rw [List.append_assoc]
          exact List.Perm.refl _
        exact step.trans hperm
      · rw [emitInvocationOrder_register_other sys n0 name h0 hn] at step
        have hfilter :
            ((n0, h0) :: rest).filter (fun r => r.1 = name) =
              rest.filter (fun r => r.1 = name) := by
          simp [List.filter_cons, hn]
        rw [hfilter]
        exact step

/-- C5: after any sequence of registrations on a fresh event system, the
handler sequence that a single emission invokes for an event name is all
of the handlers registered for that name (a permutation of them) in
descending-priority order (`critical=4` before `high=3` before
`normal=2` before `low=1`); and concretely, registering H1(low),
H2(critical), H3(normal) for one name, in that order, yields the
invocation order H2, H3, H1. -/
theorem claim_C5_emit_priority_order :
    (∀ (regs : List (String × EventHandlerReg)) (name : String),
        (emitInvocationOrder (registerAll EventSystem.empty regs) name).Pairwise priorityGe ∧
          (emitInvocationOrder (registerAll EventSystem.empty regs) name).Perm
            ((regs.filter (fun r => r.1 = name)).map Prod.snd)) ∧
    emitInvocationOrder
        (registerAll EventSystem.empty
          [("e", ⟨"p1", 1, EventPriority.low⟩), ("e", ⟨"p2", 2, EventPriority.critical⟩),
            ("e", ⟨"p3", 3, EventPriority.normal⟩)]) "e" =
      [⟨"p2", 2, EventPriority.critical⟩, ⟨"p3", 3, EventPriority.normal⟩,
        ⟨"p1", 1, EventPriority.low⟩] := by
  constructor
  · intro regs name
    constructor
    · exact emitInvocationOrder_registerAll_pairwise regs EventSystem.empty
        (fun n => List.Pairwise.nil) name
    · have h := emitInvocationOrder_registerAll_perm regs EventSystem.empty name
      simpa [emitInvocationOrder, EventSystem.empty, getD, getOpt] using h
  · rfl

/-- C6: `translate` resolves the dot-separated key against the current
locale's catalog first; when that descent fails and the current locale
differs from the default one, the default locale's catalog decides the
output (so a key present only in the default locale yields the default
locale's value); and whenever neither catalog resolves the key to a
string, the key itself is returned unmodified. -/
theorem claim_C6_translate_lookup_order :
    ∀ (mgr : LanguageManager) (key : String) (kwargs : List (String × String)),
      (∀ s, descend (splitKey key) (.obj (catalogOf mgr mgr.current_language)) =
          some (.str s) →
        translate mgr key kwargs = formatOutcome s kwargs) ∧
      (∀ s, descend (splitKey key) (.obj (catalogOf mgr mgr.current_language)) = none →
        mgr.current_language ≠ mgr.default_language →
        descend (splitKey key) (.obj (catalogOf mgr mgr.default_language)) =
          some (.str s) →
        translate mgr key kwargs = formatOutcome s kwargs) ∧
      ((∀ s, descend (splitKey key) (.obj (catalogOf mgr mgr.current_language)) ≠
          some (.str s)) →
        (∀ s, descend (splitKey key) (.obj (catalogOf mgr mgr.default_language)) ≠
          some (.str s)) →
        translate mgr key kwargs = Except.ok key) := by
  intro mgr key kwargs
  refine ⟨fun s h => ?_, fun s h hne hdef => ?_, fun hcur hdef => ?_⟩
  · simp [translate, resolvedValue, h]
  · simp [translate, resolvedValue, h, hne, hdef]
  · cases e : descend (splitKey key) (.obj (catalogOf mgr mgr.current_language)) with
    | some v =>
        cases v with
        | str s => exact absurd e (hcur s)
        | obj entries => simp [translate, resolvedValue, e]
    | none =>
        by_cases hne : mgr.current_language = mgr.default_language
        · rw [hne] at e
          simp [translate, resolvedValue, hne, e]
        · cases e2 : descend (splitKey key) (.obj (catalogOf mgr mgr.default_language)) with
          | some v =>
              cases v with
              | str s => exact absurd e2 (hdef s)
              | obj entries => simp [translate, resolvedValue, e, hne, e2]
          | none => simp [translate, resolvedValue, e, hne, e2]

/-- Witness for C6: the key `greet` exists only in the default locale
(`zh_CN`), the current locale is `en_US`, and `translate` returns the
default locale's value. -/
theorem claim_C6_translate_lookup_order_witness :
    translate ⟨"zh_CN", "en_US", [("zh_CN", [("greet", TransValue.str "你好")]), ("en_US", [])]⟩
        "greet" [] = Except.ok "你好" := by
  have h :=
    ((claim_C6_translate_lookup_order
          ⟨"zh_CN", "en_US", [("zh_CN", [("greet", TransValue.str "你好")]), ("en_US", [])]⟩
          "greet" []).2.1 "你好" rfl (by decide) rfl)
  exact h.trans rfl

/-- C7 (amended): when a key resolves to a catalog string, `translate`
formats it against the parameters and returns the formatted result;
a formatting `KeyError` or `ValueError` — the two exception types the
`try/except` catches — yields the unformatted resolved string; any other
formatting exception, such as the `IndexError` a positional replacement
field produces (no positional arguments are ever supplied), propagates
out of `translate`. -/
theorem claim_C7_formatting_amended :
    ∀ (mgr : LanguageManager) (key : String) (kwargs : List (String × String)) (s : String),
      resolvedValue mgr key = some (.str s) →
      ((∀ r, pyFormat s kwargs = .ok r → translate mgr key kwargs = .ok r) ∧
        (pyFormat s kwargs = .error .keyError → translate mgr key kwargs = .ok s) ∧
        (pyFormat s kwargs = .error .valueError → translate mgr key kwargs = .ok s) ∧
        (pyFormat s kwargs = .error .indexError →
          translate mgr key kwargs = .error .indexError)) := by
  intro mgr key kwargs s h
  refine ⟨fun r hr => ?_, fun hr => ?_, fun hr => ?_, fun hr => ?_⟩ <;>
    simp [translate, h, formatOutcome, hr]

/-- Witness for C7's amended statement: a missing keyword placeholder
(`KeyError`) is caught and the unformatted string is returned. -/
theorem claim_C7_formatting_amended_witness :
    translate ⟨"zh_CN", "zh_CN", [("zh_CN", [("k", TransValue.str "{missing}")])]⟩ "k" [] =
      Except.ok "{missing}" :=
  (claim_C7_formatting_amended
      ⟨"zh_CN", "zh_CN", [("zh_CN", [("k", TransValue.str "{missing}")])]⟩ "k" [] "{missing}"
      rfl).2.1 rfl

/-- Counterexample to C7 as frozen: a catalog string holding the
positional replacement field `{0}` makes `translate` raise `IndexError`
(only `KeyError` and `ValueError` are caught), rather than return the
unformatted resolved string. -/
theorem claim_C7_counterexample :
    translate ⟨"zh_CN", "zh_CN", [("zh_CN", [("k", TransValue.str "{0}")])]⟩ "k" [] =
      Except.error PyErr.indexError := rfl

theorem firstMissingField_isSome (required : List String) (ps : Params) (f : String)
    (hf : f ∈ required) (hmiss : fieldMissing ps f = true) :
    (firstMissingField required ps).isSome = true := by
  induction required with
  | nil => cases hf
  | cons g gs ih =>
      rcases List.mem_cons.1 hf with h | h
      · subst h
        unfold fieldMissing at hmiss
        unfold firstMissingField
        cases e : getOpt ps f with
        | none => simp
        | some v =>
            rw [e] at hmiss
            simp at hmiss
            simp [hmiss]
      · unfold firstMissingField
        cases e : getOpt ps g with
        | none => simp
        | some v =>
            by_cases ht : v.truthy
            · simp [ht, ih h]
            · simp [ht]

/-- C1 (amended): architecture validation fails whenever any of `topic`,
`genre`, `num_chapters`, `word_number`, `filepath` is absent or falsy,
and the failing run neither looks up an LLM configuration nor invokes
the generation function; blueprint validation requires both
`chapter_num` and `filepath` (not `filepath` alone), and every params
map carrying truthy values for both passes it. -/
theorem claim_C1_phase_param_validation_amended :
    (∀ (ps : Params) (f : String),
        f ∈ requiredFieldsFor Phase.architecture →
        fieldMissing ps f = true →
        validate_architecture_params ps = false ∧
          ∀ env : GenEnv,
            (runGenerationPhase Phase.architecture env ps).llmLookupInvoked = false ∧
              (runGenerationPhase Phase.architecture env ps).generationInvoked = false) ∧
    (∀ ps : Params,
        fieldMissing ps "chapter_num" = false →
        fieldMissing ps "filepath" = false →
        validate_blueprint_params ps = true) := by
  constructor
  · intro ps f hf hmiss
    have hsome := firstMissingField_isSome _ ps f hf hmiss
    constructor
    · unfold validate_architecture_params
      cases e : firstMissingField (requiredFieldsFor .architecture) ps with
      | none => rw [e] at hsome; simp at hsome
      | some g => simp [e]
    · intro env
      unfold runGenerationPhase
      cases e : firstMissingField (requiredFieldsFor .architecture) ps with
      | none => rw [e] at hsome; simp at hsome
      | some g => simp [e]
  · intro ps h1 h2
    unfold fieldMissing at h1 h2
    cases e1 : getOpt ps "chapter_num" with
    | none => rw [e1] at h1; simp at h1
    | some v1 =>
        rw [e1] at h1
        simp at h1
        cases e2 : getOpt ps "filepath" with
        | none => rw [e2] at h2; simp at h2
        | some v2 =>
            rw [e2] at h2
            simp at h2
            simp [validate_blueprint_params, requiredFieldsFor, firstMissingField,
              e1, e2, h1, h2]

/-- Witness for C1's amended statement: an architecture params map
missing `genre` fails validation and its run touches neither the LLM
lookup nor the generation function. -/
theorem claim_C1_phase_param_validation_amended_witness :
    validate_architecture_params [("topic", PyVal.vStr "t")] = false ∧
      (runGenerationPhase Phase.architecture ⟨none, [], true, true, true, true⟩
          [("topic", PyVal.vStr "t")]).llmLookupInvoked = false ∧
      (runGenerationPhase Phase.architecture ⟨none, [], true, true, true, true⟩
          [("topic", PyVal.vStr "t")]).generationInvoked = false := by
  have h :=
    claim_C1_phase_param_validation_amended.1 [("topic", PyVal.vStr "t")] "genre"
      (by decide) (by decide)
  exact ⟨h.1, (h.2 ⟨none, [], true, true, true, true⟩).1,
    (h.2 ⟨none, [], true, true, true, true⟩).2⟩

/-- Counterexample to C1 as frozen: a blueprint params map whose
`filepath` is non-empty but which lacks `chapter_num` fails
`_validate_blueprint_params` (the validator requires both fields). -/
theorem claim_C1_counterexample :
    validate_blueprint_params [("filepath", PyVal.vStr "test.txt")] = false := by decide

/-- C8 (amended): for every phase, when validation passes, an LLM
configuration resolves to a non-empty (truthy) dictionary, and the
generation function reports success, the controller shows the phase's
success message, emits the phase's completion event
(`<phase>_generation_completed` for architecture, blueprint and draft,
`finalization_completed` for finalization), invokes every callback
registered for the phase with `(true, params)`, sets the controller
state to `completed`, clears the current-task marker, and returns
`true`. -/
theorem claim_C8_generation_success_amended :
    ∀ (phase : Phase) (env : GenEnv) (params : Params) (c : LlmConfig),
      firstMissingField (requiredFieldsFor phase) params = none →
      getLlmConfigForTask env.modelData phase = some c →
      c ≠ [] →
      env.genSuccess = true →
      env.hasShowSuccess = true →
      (ViewMsg.showSuccess (successTextFor phase params) ∈
          (runGenerationPhase phase env params).messages ∧
        completeEventFor phase ∈ (runGenerationPhase phase env params).events ∧
        (runGenerationPhase phase env params).callbackCalls =
          (getD env.generation_callbacks (callbackKeyFor phase) []).map
            (fun cb => (cb, true, params)) ∧
        (runGenerationPhase phase env params).finalState = ControllerState.completed ∧
        (runGenerationPhase phase env params).currentTask = none ∧
        (runGenerationPhase phase env params).result = true) := by
  intro phase env params c hvalid hcfg hne hsucc hshow
  have hc : c.isEmpty = false := by
    cases c with
    | nil => exact absurd rfl hne
    | cons a l => rfl
  unfold runGenerationPhase
  simp [hvalid, hcfg, hc, hsucc, hshow]

/-- Witness for C8's amended statement at a concrete architecture run. -/
theorem claim_C8_generation_success_amended_witness :
    (runGenerationPhase Phase.architecture
          ⟨some ⟨[], [("cfg", [("api_key", "k")])]⟩, [], true, true, true, true⟩
          [("topic", PyVal.vStr "t"), ("genre", PyVal.vStr "g"),
            ("num_chapters", PyVal.vInt 10), ("word_number", PyVal.vInt 3000),
            ("filepath", PyVal.vStr "f")]).finalState = ControllerState.completed ∧
      (runGenerationPhase Phase.architecture
          ⟨some ⟨[], [("cfg", [("api_key", "k")])]⟩, [], true, true, true, true⟩
          [("topic", PyVal.vStr "t"), ("genre", PyVal.vStr "g"),
            ("num_chapters", PyVal.vInt 10), ("word_number", PyVal.vInt 3000),
            ("filepath", PyVal.vStr "f")]).result = true := by
  have h :=
    claim_C8_generation_success_amended Phase.architecture
      ⟨some ⟨[], [("cfg", [("api_key", "k")])]⟩, [], true, true, true, true⟩
      [("topic", PyVal.vStr "t"), ("genre", PyVal.vStr "g"),
        ("num_chapters", PyVal.vInt 10), ("word_number", PyVal.vInt 3000),
        ("filepath", PyVal.vStr "f")]
      [("api_key", "k")] (by decide) (by decide) (by decide) rfl rfl
  exact ⟨h.2.2.2.1, h.2.2.2.2.2⟩

/-- Counterexample to C8 as frozen: a successful finalization run emits
`finalization_completed` — not `finalization_generation_completed` — and
leaves the controller in the `completed` state, not `idle`. -/
theorem claim_C8_counterexample :
    ("finalization_generation_completed" ∉
        (runGenerationPhase Phase.finalization
            ⟨some ⟨[], [("cfg", [("api_key", "k")])]⟩, [], true, true, true, true⟩
            [("chapter_num", PyVal.vInt 1), ("filepath", PyVal.vStr "f")]).events) ∧
      (runGenerationPhase Phase.finalization
          ⟨some ⟨[], [("cfg", [("api_key", "k")])]⟩, [], true, true, true, true⟩
          [("chapter_num", PyVal.vInt 1), ("filepath", PyVal.vStr "f")]).finalState ≠
        ControllerState.idle := by decide

theorem dropWhile_eq_self_of_forall {α : Type} (p : α → Bool) (l : List α)
    (h : ∀ x ∈ l, p x = false) : l.dropWhile p = l := by
  cases l with
  | nil => rfl
  | cons x xs =>
      rw [List.dropWhile_cons]
      simp [h x (List.mem_cons_self x xs)]

theorem start_monitoring_step (p : String) (L : ResourceLimits) (h : List Int) (t : Int)
    (hEn : L.enabled = true)
    (hpurge : ∀ x ∈ h, decide (x < t - 60) = false)
    (hlen : h.length < L.max_calls_per_minute) :
    start_monitoring (mkRateMonitor p L h) p t =
      (StartResult.context, mkRateMonitor p L (dequeAppend1000 h t)) := by
  have hpurge2 : h.dropWhile (fun x => decide (x < t - 60)) = h :=
    dropWhile_eq_self_of_forall _ _ hpurge
  have hnotle : ¬ (L.max_calls_per_minute ≤ h.length) := Nat.not_le.2 hlen
  simp [start_monitoring, check_call_rate_limit, get_plugin_limits, hEn, mkRateMonitor,
    getD, getOpt, hpurge2, hnotle, setKey]

theorem start_monitoring_reject (p : String) (L : ResourceLimits) (h : List Int) (t : Int)
    (hEn : L.enabled = true)
    (hpurge : ∀ x ∈ h, decide (x < t - 60) = false)
    (hlen : L.max_calls_per_minute ≤ h.length) :
    start_monitoring (mkRateMonitor p L h) p t =
      (StartResult.rateLimitError, mkRateMonitor p L h) := by
  have hpurge2 : h.dropWhile (fun x => decide (x < t - 60)) = h :=
    dropWhile_eq_self_of_forall _ _ hpurge
  simp [start_monitoring, check_call_rate_limit, get_plugin_limits, hEn, mkRateMonitor,
    getD, getOpt, hpurge2, hlen, setKey]

theorem runStartCalls_append (p : String) (a b : List Int) :
    ∀ m : PerfMonitor,
      runStartCalls m p (a ++ b) =
        ((runStartCalls m p a).1 ++ (runStartCalls (runStartCalls m p a).2 p b).1,
          (runStartCalls (runStartCalls m p a).2 p b).2) := by
  induction a with
  | nil => intro m; simp [runStartCalls]
  | cons x xs ih =>
      intro m
      rcases hsm : start_monitoring m p x with ⟨r, m1⟩
      show runStartCalls m p (x :: (xs ++ b)) = _
      simp only [runStartCalls, hsm, ih m1]
      simp [List.cons_append]

theorem rate_gate_all_succeed (p : String) (L : ResourceLimits) (hEn : L.enabled = true)
    (hcap : L.max_calls_per_minute ≤ 1000) :
    ∀ (ts h : List Int),
      (∀ x ∈ h ++ ts, ∀ y ∈ h ++ ts, x ≤ y + 60) →
      h.length + ts.length ≤ L.max_calls_per_minute →
      runStartCalls (mkRateMonitor p L h) p ts =
        (List.replicate ts.length StartResult.context, mkRateMonitor p L (h ++ ts)) := by
  intro ts
  induction ts with
  | nil =>
      intro h _ _
      simp [runStartCalls]
  | cons t ts ih =>
      intro h Hwin Hlen
      simp only [List.length_cons] at Hlen
      have hpurge : ∀ x ∈ h, decide (x < t - 60) = false := by
        intro x hx
        simp only [decide_eq_false_iff_not]
        have := Hwin t (by simp) x (by simp [hx])
        omega
      have hlen : h.length < L.max_calls_per_minute := by omega
      have hcap' : h.length < 1000 := lt_of_lt_of_le hlen hcap
      have hstep := start_monitoring_step p L h t hEn hpurge hlen
      have hdeq : dequeAppend1000 h t = h ++ [t] := by
        have hq : ¬ (1000 < (h ++ [t]).length) := by
          simp only [List.length_append, List.length_cons, List.length_nil]
          omega
        simp only [dequeAppend1000]
        rw [if_neg hq]
      have hw2 : ∀ x ∈ (h ++ [t]) ++ ts, ∀ y ∈ (h ++ [t]) ++ ts, x ≤ y + 60 := by
        intro x hx y hy
        refine Hwin x ?_ y ?_
        · simpa [List.append_assoc] using hx
        · simpa [List.append_assoc] using hy
      have hl2 : (h ++ [t]).length + ts.length ≤ L.max_calls_per_minute := by
        simp only [List.length_append, List.length_cons, List.length_nil]
        omega
      unfold runStartCalls
      rw [hstep, hdeq]
      simp [ih (h ++ [t]) hw2 hl2, List.replicate_succ, List.append_assoc]

/-- C4 (amended): for a plugin whose rate limit is enabled and whose
`max_calls_per_minute` does not exceed 1000 (the fixed capacity of the
per-plugin call-history deque), a sequence of `max_calls_per_minute + 1`
calls to `start_monitoring` within one 60-second window, starting from
an empty window, has its first `max_calls_per_minute` calls succeed
(each recording its timestamp and returning a monitoring context) and
its last call fail with the rate-limit error, which also leaves the last
call's timestamp unrecorded. -/
theorem claim_C4_rate_gate_amended :
    ∀ (p : String) (L : ResourceLimits) (ts : List Int) (t : Int),
      L.enabled = true →
      L.max_calls_per_minute ≤ 1000 →
      ts.length = L.max_calls_per_minute →
      (∀ x ∈ ts ++ [t], ∀ y ∈ ts ++ [t], x ≤ y + 60) →
      runStartCalls (mkRateMonitor p L []) p (ts ++ [t]) =
        (List.replicate L.max_calls_per_minute StartResult.context ++
            [StartResult.rateLimitError],
          mkRateMonitor p L ts) := by
  intro p L ts t hEn hcap hlen Hwin
  have Hwin' : ∀ x ∈ ([] : List Int) ++ ts, ∀ y ∈ ([] : List Int) ++ ts, x ≤ y + 60 := by
    intro x hx y hy
    simp only [List.nil_append] at hx hy
    exact Hwin x (List.mem_append_left _ hx) y (List.mem_append_left _ hy)
  have hpre := rate_gate_all_succeed p L hEn hcap ts [] Hwin'
    (by simp only [List.length_nil]; omega)
  simp only [List.nil_append] at hpre
  have hpurge : ∀ x ∈ ts, decide (x < t - 60) = false := by
    intro x hx
    simp only [decide_eq_false_iff_not]
    have := Hwin t (by simp) x (List.mem_append_left _ hx)
    omega
  have hrej := start_monitoring_reject p L ts t hEn hpurge (by omega)
  rw [runStartCalls_append, hpre]
  simp [runStartCalls, hrej, hlen]

/-- Witness for C4's amended statement: with `max_calls_per_minute = 2`,
three calls at one instant give context, context, rate-limit error. -/
theorem claim_C4_rate_gate_amended_witness :
    runStartCalls (mkRateMonitor "p" ⟨2, true⟩ []) "p" ([0, 0] ++ [0]) =
      (List.replicate 2 StartResult.context ++ [StartResult.rateLimitError],
        mkRateMonitor "p" ⟨2, true⟩ [0, 0]) :=
  claim_C4_rate_gate_amended "p" ⟨2, true⟩ [0, 0] 0 rfl (by decide) rfl (by decide)

theorem c4_unbounded_step (h : List Int) (hz : ∀ x ∈ h, x = (0 : Int))
    (hlen : h.length ≤ 1000) :
    ∃ h', start_monitoring (mkRateMonitor "p" ⟨1001, true⟩ h) "p" 0 =
        (StartResult.context, mkRateMonitor "p" ⟨1001, true⟩ h') ∧
      (∀ x ∈ h', x = 0) ∧ h'.length ≤ 1000 := by
  have hpurge : ∀ x ∈ h, decide (x < (0 : Int) - 60) = false := by
    intro x hx
    rw [hz x hx]
    decide
  have hstep := start_monitoring_step "p" ⟨1001, true⟩ h 0 rfl hpurge
    (by show h.length < 1001; omega)
  refine ⟨dequeAppend1000 h 0, hstep, ?_, ?_⟩
  · intro x hx
    unfold dequeAppend1000 at hx
    by_cases hc : 1000 < (h ++ [(0 : Int)]).length
    · rw [if_pos hc] at hx
      rcases List.mem_append.1 (List.mem_of_mem_drop hx) with hx2 | hx2
      · exact hz x hx2
      · simpa using hx2
    · rw [if_neg hc] at hx
      rcases List.mem_append.1 hx with hx2 | hx2
      · exact hz x hx2
      · simpa using hx2
  · unfold dequeAppend1000
    by_cases hc : 1000 < (h ++ [(0 : Int)]).length
    · rw [if_pos hc]
      simp only [List.length_drop, List.length_append, List.length_cons, List.length_nil]
      omega
    · rw [if_neg hc]
      simp only [List.length_append, List.length_cons, List.length_nil] at hc ⊢
      omega

theorem c4_unbounded_run :
    ∀ (n : Nat) (h : List Int), (∀ x ∈ h, x = (0 : Int)) → h.length ≤ 1000 →
      (runStartCalls (mkRateMonitor "p" ⟨1001, true⟩ h) "p" (List.replicate n 0)).1 =
        List.replicate n StartResult.context := by
  intro n
  induction n with
  | zero => intro h _ _; simp [runStartCalls]
  | succ n ih =>
      intro h hz hlen
      obtain ⟨h', hstep, hz', hlen'⟩ := c4_unbounded_step h hz hlen
      rw [List.replicate_succ, List.replicate_succ]
      unfold runStartCalls
      rw [hstep]
      simp [ih h' hz' hlen']

/-- Counterexample to C4 as frozen: with rate limiting enabled and
`max_calls_per_minute = 1001`, a sequence of `max_calls_per_minute + 1 =
1002` calls within one 60-second window (all at the same instant) has
every call succeed — the last call does not fail — because the
call-history deque holds at most 1000 timestamps, so the window can
never reach 1001 entries. -/
theorem claim_C4_counterexample :
    (runStartCalls (mkRateMonitor "p" ⟨1001, true⟩ []) "p" (List.replicate 1002 0)).1 =
      List.replicate 1002 StartResult.context :=
  c4_unbounded_run 1002 [] (by simp) (by simp)

theorem recordCrash_disabled (st : CrashHandlerState) (r : CrashRecord) :
    (recordCrash st r).disabled_plugins = st.disabled_plugins := rfl

theorem recordCrash_policies (st : CrashHandlerState) (r : CrashRecord) :
    (recordCrash st r).plugin_policies = st.plugin_policies := rfl

theorem recordCrash_file_logs (st : CrashHandlerState) (r : CrashRecord) :
    (recordCrash st r).file_logs =
      setKey st.file_logs r.plugin_name
        (last100 (getD st.file_logs r.plugin_name [] ++ [r])) := rfl

theorem recordCrash_counts_self (st : CrashHandlerState) (r : CrashRecord) :
    getD (recordCrash st r).crash_counts r.plugin_name 0 =
      getD st.crash_counts r.plugin_name 0 + 1 := by
  simp [recordCrash, logCrashToFile, getD, getOpt_setKey_self]

theorem recordCrash_records_self (st : CrashHandlerState) (r : CrashRecord) :
    getD (recordCrash st r).crash_records r.plugin_name [] =
      getD st.crash_records r.plugin_name [] ++ [r] := by
  simp [recordCrash, logCrashToFile, getD, getOpt_setKey_self]

theorem attemptRecovery_preserves (st : CrashHandlerState) (p : String)
    (sev : CrashSeverity) (pol : CrashPolicy) (cb : Bool) :
    (attemptRecovery st p sev pol cb).2.crash_records = st.crash_records ∧
      (attemptRecovery st p sev pol cb).2.crash_counts = st.crash_counts ∧
      (attemptRecovery st p sev pol cb).2.disabled_plugins = st.disabled_plugins ∧
      (attemptRecovery st p sev pol cb).2.file_logs = st.file_logs ∧
      (attemptRecovery st p sev pol cb).2.plugin_policies = st.plugin_policies := by
  refine ⟨?_, ?_, ?_, ?_, ?_⟩
  all_goals
    simp only [attemptRecovery]
    split_ifs <;> rfl

theorem shouldDisablePlugin_eq_true_iff (st : CrashHandlerState) (p : String)
    (pol : CrashPolicy) (now : Int) :
    shouldDisablePlugin st p pol now = true ↔
      (p ∈ st.disabled_plugins ∨
        pol.auto_disable_threshold ≤ getD st.crash_counts p 0 ∨
        pol.max_crashes_per_hour ≤ (getRecentCrashes st p now 1).length) := by
  unfold shouldDisablePlugin
  split_ifs with h1 h2 h3 <;> simp [*]

theorem getRecentCrashes_record (st : CrashHandlerState) (r : CrashRecord) (now : Int)
    (ht : now - 3600 < r.timestamp) :
    getRecentCrashes (recordCrash st r) r.plugin_name now 1 =
      getRecentCrashes st r.plugin_name now 1 ++ [r] := by
  unfold getRecentCrashes
  rw [recordCrash_records_self, List.filter_append]
  simp [ht]

theorem mem_addToSet_self (l : List String) (p : String) : p ∈ addToSet l p := by
  unfold addToSet
  split
  · assumption
  · simp

theorem get_plugin_policy_default (st : CrashHandlerState) (p : String)
    (h : getOpt st.plugin_policies p = none) :
    get_plugin_policy st p = defaultCrashPolicy := by
  simp [get_plugin_policy, getD, h]

theorem handle_crash_disable (st : CrashHandlerState) (p : String) (k : ExcKind)
    (msg tb op : String) (sev : Option CrashSeverity) (now : Int) (cbOk : Bool)
    (hd : shouldDisablePlugin (recordCrash st (crashRecordOf p k msg tb op sev now)) p
        (get_plugin_policy (recordCrash st (crashRecordOf p k msg tb op sev now)) p)
        now = true) :
    handle_crash st p k msg tb op sev now cbOk =
      ⟨false, false,
        { recordCrash st (crashRecordOf p k msg tb op sev now) with
          disabled_plugins :=
            addToSet (recordCrash st (crashRecordOf p k msg tb op sev now)).disabled_plugins
              p }⟩ := by
  simp [handle_crash, hd]

theorem handle_crash_not_disable (st : CrashHandlerState) (p : String) (k : ExcKind)
    (msg tb op : String) (sev : Option CrashSeverity) (now : Int) (cbOk : Bool)
    (hd : shouldDisablePlugin (recordCrash st (crashRecordOf p k msg tb op sev now)) p
        (get_plugin_policy (recordCrash st (crashRecordOf p k msg tb op sev now)) p)
        now = false) :
    (handle_crash st p k msg tb op sev now cbOk).recovery_attempted = true ∧
      (handle_crash st p k msg tb op sev now cbOk).state.disabled_plugins =
        st.disabled_plugins := by
  constructor
  · simp [handle_crash, hd]
  · simp only [handle_crash, hd]
    simp only [Bool.false_eq_true, if_false]
    have hpres :=
      (attemptRecovery_preserves (recordCrash st (crashRecordOf p k msg tb op sev now)) p
        (crashRecordOf p k msg tb op sev now).severity
        (get_plugin_policy (recordCrash st (crashRecordOf p k msg tb op sev now)) p)
        cbOk).2.2.1
    exact hpres.trans (recordCrash_disabled st _)

/-- C3: under the default crash policy, `handle_crash` marks the plugin
disabled and returns failure without reaching `_attempt_recovery`
exactly when, after the new crash is recorded, the plugin is already
disabled, or its lifetime crash count (the pre-call count plus the new
crash) has reached `auto_disable_threshold = 5`, or its crash count in
the trailing hour (the pre-call recent crashes plus the new one) has
reached `max_crashes_per_hour = 3`; in particular, three `handle_crash`
calls within one hour on a fresh handler disable the plugin on the third
call although its lifetime total is only 3 < 5. -/
theorem claim_C3_crash_auto_disable :
    (∀ (st : CrashHandlerState) (p : String) (k : ExcKind) (msg tb op : String)
        (sev : Option CrashSeverity) (now : Int) (cbOk : Bool),
        getOpt st.plugin_policies p = none →
        (((handle_crash st p k msg tb op sev now cbOk).recovery_attempted = false ∧
            (handle_crash st p k msg tb op sev now cbOk).result = false ∧
            p ∈ (handle_crash st p k msg tb op sev now cbOk).state.disabled_plugins) ↔
          (p ∈ st.disabled_plugins ∨
            5 ≤ getD st.crash_counts p 0 + 1 ∨
            3 ≤ (getRecentCrashes st p now 1).length + 1))) ∧
    ((handle_crash
          ((handle_crash
              ((handle_crash CrashHandlerState.fresh "p" ExcKind.generic "m" "t" "o" none 0
                  false).state)
              "p" ExcKind.generic "m" "t" "o" none 600 false).state)
          "p" ExcKind.generic "m" "t" "o" none 1200 false).result = false ∧
      (handle_crash
          ((handle_crash
              ((handle_crash CrashHandlerState.fresh "p" ExcKind.generic "m" "t" "o" none 0
                  false).state)
              "p" ExcKind.generic "m" "t" "o" none 600 false).state)
          "p" ExcKind.generic "m" "t" "o" none 1200 false).recovery_attempted = false ∧
      "p" ∈ (handle_crash
          ((handle_crash
              ((handle_crash CrashHandlerState.fresh "p" ExcKind.generic "m" "t" "o" none 0
                  false).state)
              "p" ExcKind.generic "m" "t" "o" none 600 false).state)
          "p" ExcKind.generic "m" "t" "o" none 1200 false).state.disabled_plugins ∧
      getD (handle_crash
          ((handle_crash
              ((handle_crash CrashHandlerState.fresh "p" ExcKind.generic "m" "t" "o" none 0
                  false).state)
              "p" ExcKind.generic "m" "t" "o" none 600 false).state)
          "p" ExcKind.generic "m" "t" "o" none 1200 false).state.crash_counts "p" 0 = 3 ∧
      (3 : Nat) < 5) := by
  constructor
  · intro st p k msg tb op sev now cbOk hpol
    have hpolicy :
        get_plugin_policy (recordCrash st (crashRecordOf p k msg tb op sev now)) p =
          defaultCrashPolicy := by
      refine get_plugin_policy_default _ _ ?_
      rw [recordCrash_policies]
      exact hpol
    have hname : (crashRecordOf p k msg tb op sev now).plugin_name = p := rfl
    have hts : (crashRecordOf p k msg tb op sev now).timestamp = now := rfl
    have hcond :
        shouldDisablePlugin (recordCrash st (crashRecordOf p k msg tb op sev now)) p
            (get_plugin_policy (recordCrash st (crashRecordOf p k msg tb op sev now)) p)
            now = true ↔
          (p ∈ st.disabled_plugins ∨
            5 ≤ getD st.crash_counts p 0 + 1 ∨
            3 ≤ (getRecentCrashes st p now 1).length + 1) := by
      rw [hpolicy, shouldDisablePlugin_eq_true_iff, recordCrash_disabled]
      have hc : getD (recordCrash st (crashRecordOf p k msg tb op sev now)).crash_counts p 0 =
          getD st.crash_counts p 0 + 1 := by
        have := recordCrash_counts_self st (crashRecordOf p k msg tb op sev now)
        rwa [hname] at this
      have hr : getRecentCrashes (recordCrash st (crashRecordOf p k msg tb op sev now)) p
          now 1 = getRecentCrashes st p now 1 ++ [crashRecordOf p k msg tb op sev now] := by
        have := getRecentCrashes_record st (crashRecordOf p k msg tb op sev now) now
          (by rw [hts]; omega)
        rwa [hname] at this
      rw [hc, hr]
      simp [defaultCrashPolicy]
    by_cases hd : shouldDisablePlugin (recordCrash st (crashRecordOf p k msg tb op sev now)) p
        (get_plugin_policy (recordCrash st (crashRecordOf p k msg tb op sev now)) p) now
    · rw [handle_crash_disable st p k msg tb op sev now cbOk hd]
      constructor
      · intro _
        exact hcond.1 hd
      · intro _
        exact ⟨rfl, rfl, mem_addToSet_self _ p⟩
    · have hnd := handle_crash_not_disable st p k msg tb op sev now cbOk
        (Bool.eq_false_iff.mpr hd)
      constructor
      · intro hcontra
        rw [hnd.1] at hcontra
        exact absurd hcontra.1 (by simp)
      · intro hcontra
        exact absurd (hcond.2 hcontra) hd
  · decide

/-- Witness for C3 at a concrete state: a plugin whose lifetime count is
already 4 is disabled by the next crash, with no recovery attempt. -/
theorem claim_C3_crash_auto_disable_witness :
    (handle_crash ⟨[], [("q", 4)], [], [], [], [], []⟩ "q" ExcKind.generic "m" "t" "o" none 0
        false).recovery_attempted = false ∧
      (handle_crash ⟨[], [("q", 4)], [], [], [], [], []⟩ "q" ExcKind.generic "m" "t" "o" none 0
          false).result = false ∧
      "q" ∈ (handle_crash ⟨[], [("q", 4)], [], [], [], [], []⟩ "q" ExcKind.generic "m" "t" "o"
          none 0 false).state.disabled_plugins :=
  ((claim_C3_crash_auto_disable.1 ⟨[], [("q", 4)], [], [], [], [], []⟩ "q" ExcKind.generic
      "m" "t" "o" none 0 false rfl).2 (by right; left; decide))

theorem handle_crash_file_logs (st : CrashHandlerState) (p : String) (k : ExcKind)
    (msg tb op : String) (sev : Option CrashSeverity) (now : Int) (cbOk : Bool) :
    (handle_crash st p k msg tb op sev now cbOk).state.file_logs =
      setKey st.file_logs p
        (last100 (getD st.file_logs p [] ++ [crashRecordOf p k msg tb op sev now])) := by
  by_cases hd : shouldDisablePlugin (recordCrash st (crashRecordOf p k msg tb op sev now)) p
      (get_plugin_policy (recordCrash st (crashRecordOf p k msg tb op sev now)) p) now
  · rw [handle_crash_disable st p k msg tb op sev now cbOk hd]
    rfl
  · simp only [handle_crash, Bool.eq_false_iff.mpr hd, Bool.false_eq_true, if_false]
    have hpres :=
      (attemptRecovery_preserves (recordCrash st (crashRecordOf p k msg tb op sev now)) p
        (crashRecordOf p k msg tb op sev now).severity
        (get_plugin_policy (recordCrash st (crashRecordOf p k msg tb op sev now)) p)
        cbOk).2.2.2.1
    exact hpres.trans (recordCrash_file_logs st _)

/-- C9: the record that `handle_crash` appends to the plugin's on-disk
crash log always carries `recovery_attempted = false` and
`recovery_successful = false` — the file is written before any recovery
attempt and only the in-memory record's flags are updated afterwards —
so a crash-log file whose entries all show unattempted, unsuccessful
recovery keeps that property across every `handle_crash` call, and
reloading history from disk can never show a successful recovery. -/
theorem claim_C9_disk_record_flags :
    ∀ (st : CrashHandlerState) (p : String) (k : ExcKind) (msg tb op : String)
      (sev : Option CrashSeverity) (now : Int) (cbOk : Bool),
      ((crashRecordOf p k msg tb op sev now).recovery_attempted = false ∧
        (crashRecordOf p k msg tb op sev now).recovery_successful = false) ∧
      ((handle_crash st p k msg tb op sev now cbOk).state.file_logs =
        setKey st.file_logs p
          (last100 (getD st.file_logs p [] ++ [crashRecordOf p k msg tb op sev now]))) ∧
      ((∀ r ∈ getD st.file_logs p [],
          r.recovery_attempted = false ∧ r.recovery_successful = false) →
        ∀ r ∈ getD (handle_crash st p k msg tb op sev now cbOk).state.file_logs p [],
          r.recovery_attempted = false ∧ r.recovery_successful = false) := by
  intro st p k msg tb op sev now cbOk
  refine ⟨⟨rfl, rfl⟩, handle_crash_file_logs st p k msg tb op sev now cbOk, ?_⟩
  intro hold r hr
  rw [handle_crash_file_logs st p k msg tb op sev now cbOk] at hr
  rw [getD, getOpt_setKey_self] at hr
  simp only [Option.getD_some] at hr
  have hr2 := List.mem_of_mem_drop hr
  rcases List.mem_append.1 hr2 with hr3 | hr3
  · exact hold r hr3
  · have : r = crashRecordOf p k msg tb op sev now := by simpa using hr3
    subst this
    exact ⟨rfl, rfl⟩

/-- Witness for C9: on a fresh handler, the single entry written to the
plugin's crash-log file shows no recovery attempt and no success. -/
theorem claim_C9_disk_record_flags_witness :
    (crashRecordOf "w" ExcKind.generic "m" "t" "o" none 0).recovery_attempted = false ∧
      (crashRecordOf "w" ExcKind.generic "m" "t" "o" none 0).recovery_successful = false :=
  (claim_C9_disk_record_flags CrashHandlerState.fresh "w" ExcKind.generic "m" "t" "o" none 0
      false).2.2 (by simp [CrashHandlerState.fresh, getD, getOpt])
    (crashRecordOf "w" ExcKind.generic "m" "t" "o" none 0) (by decide)

theorem enable_plugin_crash_counts (st : CrashHandlerState) (p : String) :
    (enable_plugin st p).crash_counts = st.crash_counts := by
  unfold enable_plugin
  split <;> rfl

theorem enable_plugin_policies (st : CrashHandlerState) (p : String) :
    (enable_plugin st p).plugin_policies = st.plugin_policies := by
  unfold enable_plugin
  split <;> rfl

theorem getOpt_eq_none_of_not_mem {α : Type} (l : List (String × α)) (k : String)
    (h : k ∉ l.map Prod.fst) : getOpt l k = none := by
  induction l with
  | nil => rfl
  | cons x rest ih =>
      obtain ⟨k0, v0⟩ := x
      simp only [List.map_cons, List.mem_cons] at h
      push_neg at h
      simp only [getOpt]
      rw [if_neg (Ne.symm h.1)]
      exact ih h.2

theorem getOpt_removeKey_nodup {α : Type} (l : List (String × α)) (k : String)
    (h : (l.map Prod.fst).Nodup) : getOpt (removeKey l k) k = none := by
  induction l with
  | nil => rfl
  | cons x rest ih =>
      obtain ⟨k0, v0⟩ := x
      simp only [List.map_cons, List.nodup_cons] at h
      simp only [removeKey]
      by_cases hk : k0 = k
      · rw [if_pos hk]
        subst hk
        exact getOpt_eq_none_of_not_mem rest k0 h.1
      · rw [if_neg hk]
        simp only [getOpt]
        rw [if_neg hk]
        exact ih h.2

/-- C10: `enable_plugin` never touches the lifetime crash counts (it
resets only the restart-attempt counter and the disabled flag), so a
plugin whose lifetime count has already reached
`auto_disable_threshold = 5` is, after `enable_plugin`, immediately
re-disabled by the very next `handle_crash`, which returns failure
without attempting recovery; only `clear_crash_history` removes the
lifetime count. -/
theorem claim_C10_enable_does_not_reset_counts :
    (∀ (st : CrashHandlerState) (p : String),
        (enable_plugin st p).crash_counts = st.crash_counts) ∧
    (∀ (st : CrashHandlerState) (p : String) (k : ExcKind) (msg tb op : String)
        (sev : Option CrashSeverity) (now : Int) (cbOk : Bool),
        getOpt st.plugin_policies p = none →
        5 ≤ getD st.crash_counts p 0 →
        ((handle_crash (enable_plugin st p) p k msg tb op sev now cbOk).result = false ∧
          (handle_crash (enable_plugin st p) p k msg tb op sev now cbOk).recovery_attempted =
            false ∧
          p ∈ (handle_crash (enable_plugin st p) p k msg tb op sev now
              cbOk).state.disabled_plugins)) ∧
    (∀ (st : CrashHandlerState) (p : String),
        (st.crash_counts.map Prod.fst).Nodup →
        getOpt (clear_crash_history st (some p)).crash_counts p = none) := by
  refine ⟨enable_plugin_crash_counts, ?_, ?_⟩
  · intro st p k msg tb op sev now cbOk hpol hcount
    have hpol2 : getOpt (enable_plugin st p).plugin_policies p = none := by
      rw [enable_plugin_policies]
      exact hpol
    have hpolicy :
        get_plugin_policy
            (recordCrash (enable_plugin st p) (crashRecordOf p k msg tb op sev now)) p =
          defaultCrashPolicy := by
      refine get_plugin_policy_default _ _ ?_
      rw [recordCrash_policies]
      exact hpol2
    have hname : (crashRecordOf p k msg tb op sev now).plugin_name = p := rfl
    have hc :
        getD (recordCrash (enable_plugin st p)
            (crashRecordOf p k msg tb op sev now)).crash_counts p 0 =
          getD st.crash_counts p 0 + 1 := by
      have h1 := recordCrash_counts_self (enable_plugin st p)
        (crashRecordOf p k msg tb op sev now)
      rw [hname] at h1
      rw [h1, enable_plugin_crash_counts]
    have hd :
        shouldDisablePlugin
            (recordCrash (enable_plugin st p) (crashRecordOf p k msg tb op sev now)) p
            (get_plugin_policy
              (recordCrash (enable_plugin st p) (crashRecordOf p k msg tb op sev now)) p)
            now = true := by
      rw [hpolicy, shouldDisablePlugin_eq_true_iff]
      right
      left
      rw [hc]
      show 5 ≤ getD st.crash_counts p 0 + 1
      omega
    rw [handle_crash_disable (enable_plugin st p) p k msg tb op sev now cbOk hd]
    exact ⟨rfl, rfl, mem_addToSet_self _ p⟩
  · intro st p h
    exact getOpt_removeKey_nodup st.crash_counts p h

/-- Witness for C10: a plugin with lifetime count 5 that was disabled
and then re-enabled is re-disabled, without recovery, by its next
crash. -/
theorem claim_C10_enable_does_not_reset_counts_witness :
    (handle_crash (enable_plugin ⟨[], [("p", 5)], ["p"], [("p", 1)], [], [], []⟩ "p") "p"
        ExcKind.generic "m" "t" "o" none 0 false).result = false ∧
      (handle_crash (enable_plugin ⟨[], [("p", 5)], ["p"], [("p", 1)], [], [], []⟩ "p") "p"
          ExcKind.generic "m" "t" "o" none 0 false).recovery_attempted = false ∧
      "p" ∈ (handle_crash (enable_plugin ⟨[], [("p", 5)], ["p"], [("p", 1)], [], [], []⟩ "p")
          "p" ExcKind.generic "m" "t" "o" none 0 false).state.disabled_plugins :=
  claim_C10_enable_does_not_reset_counts.2.1 ⟨[], [("p", 5)], ["p"], [("p", 1)], [], [], []⟩
    "p" ExcKind.generic "m" "t" "o" none 0 false rfl (by decide)

end AINovel
